import Mathlib

/-!
Shallow embedding of the session / cache / resolver core of
`src/polarion.ts` (class `Polarion` and its helpers).

Conventions of the embedding:
* JavaScript `Map` objects become `Store α := String → Option α` with
  last-write-wins update (`Store.set`), matching `Map.set` / `Map.get` /
  `Map.has`.
* `Date` values become `Nat` milliseconds; `new Date()` is supplied by an
  oracle field `now`.
* Optional / possibly-`undefined` string fields become `Option String`;
  JavaScript truthiness on them is `jsTruthyS` (both `undefined` and the
  empty string are falsy), and `a || b` is `jsOrS` / `jsOrOptS`.
* Each outbound HTTP request is resolved by an oracle function from the
  request key to an outcome (success payload, HTTP error status, or a
  response-less network error), mirroring axios resolution/rejection.
* Methods become state-transition functions on `PolarionState`; besides the
  source's return value they expose whether a network fetch was issued
  (`didFetch`) and whether `createPolarion` was invoked (`restarted`),
  which are the observables the specification talks about.
-/

/-- JavaScript truthiness of a possibly-undefined string value:
`undefined` and `""` are falsy, every other string is truthy. -/
def jsTruthyS : Option String → Bool
  | none => false
  | some s => s ≠ ""

/-- JavaScript `a || b` for a possibly-undefined string `a` and a string
default `b`. -/
def jsOrS (a : Option String) (b : String) : String :=
  match a with
  | some s => if s = "" then b else s
  | none => b

/-- JavaScript `a || b` where both operands are possibly-undefined
strings. -/
def jsOrOptS (a b : Option String) : Option String :=
  match a with
  | some s => if s = "" then b else some s
  | none => b

/-- Absolute difference of two millisecond timestamps, embedding
`Math.abs(current.valueOf() - time.valueOf())`. -/
def deltaMs (a b : Nat) : Nat := if b ≤ a then a - b else b - a

/-- The standard base64 alphabet. -/
def base64Chars : List Char :=
  "ABCDEFGHIJKLMNOPQRSTUVWXYZabcdefghijklmnopqrstuvwxyz0123456789+/".toList

/-- Character of the base64 alphabet at index `i` (0..63). -/
def base64Char (i : Nat) : Char := base64Chars.getD i 'A'

/-- Base64 encoding of a byte list (with `=` padding), embedding
`Buffer.prototype.toString('base64')`. -/
def base64Encode : List Nat → String
  | [] => ""
  | [b1] =>
    String.mk [base64Char (b1 / 4), base64Char (b1 % 4 * 16)] ++ "=="
  | [b1, b2] =>
    String.mk [base64Char (b1 / 4), base64Char (b1 % 4 * 16 + b2 / 16),
      base64Char (b2 % 16 * 4)] ++ "="
  | b1 :: b2 :: b3 :: rest =>
    String.mk [base64Char (b1 / 4), base64Char (b1 % 4 * 16 + b2 / 16),
      base64Char (b2 % 16 * 4 + b3 / 64), base64Char (b3 % 64)] ++
      base64Encode rest

/-- UTF-8 bytes of a string, embedding `Buffer.from(s)`. -/
def utf8Bytes (s : String) : List Nat := s.toUTF8.toList.map UInt8.toNat

/-- Functional model of a JavaScript `Map` with string keys. -/
def Store (α : Type) : Type := String → Option α

/-- The empty map (`new Map()`). -/
def Store.empty {α : Type} : Store α := fun _ => none

/-- Map update, embedding `Map.prototype.set` (last write wins). -/
def Store.set {α : Type} (m : Store α) (k : String) (v : α) : Store α :=
  fun x => if x = k then some v else m x

/-- Map lookup, embedding `Map.prototype.get` (with `has` as
`isSome`). -/
def Store.get {α : Type} (m : Store α) (k : String) : Option α := m k

/-- Value stored in a status mapping:
`{ name: string, color: string, iconPath?: string }` (line 70). -/
structure StatusEntryVal where
  name : String
  color : String
  iconPath : Option String
  deriving DecidableEq

/-- Status-cache entry: a status mapping together with its fetch time. -/
structure StatusCacheEntry where
  statuses : Store StatusEntryVal
  time : Nat

/-- Value stored in a workitem-type mapping:
`{ name: string, iconPath?: string }` (line 71). -/
structure TypeEntryVal where
  name : String
  iconPath : Option String
  deriving DecidableEq

/-- Type-cache entry: a type mapping together with its fetch time. -/
structure TypeCacheEntry where
  types : Store TypeEntryVal
  time : Nat

/-- User record `{ name: string, email?: string, initials?: string }`
(line 73). -/
structure UserVal where
  name : String
  email : Option String := none
  initials : Option String := none
  deriving DecidableEq

/-- User-cache entry: a user record together with its fetch time. -/
structure UserCacheEntry where
  user : UserVal
  time : Nat

/-- The `type` component of a resolved `PolarionWorkItem` (lines 14-18). -/
structure WorkItemTypePart where
  id : String
  name : Option String := none
  iconPath : Option String := none
  deriving DecidableEq

/-- The `author` component of a resolved `PolarionWorkItem`
(lines 19-24). -/
structure WorkItemAuthorPart where
  id : String
  name : Option String := none
  email : Option String := none
  initials : Option String := none
  deriving DecidableEq

/-- The `status` component of a resolved `PolarionWorkItem`
(lines 25-30). -/
structure WorkItemStatusPart where
  id : String
  name : Option String := none
  color : Option String := none
  iconPath : Option String := none
  deriving DecidableEq

/-- A resolved work item (interface `PolarionWorkItem`, lines 11-43).
The `downloadAttachment` closure is modelled separately by
`downloadWorkitemAttachmentForProject` applied to the item's ids; the
`description` union (string vs `{value}` object) is collapsed to its
resolved string content. -/
structure WorkItemData where
  id : Option String
  title : String
  itemType : WorkItemTypePart
  author : WorkItemAuthorPart
  status : WorkItemStatusPart
  description : Option String
  unresolvable : String
  projectId : String
  deriving DecidableEq

/-- Item-cache entry: `{ workitem: any | undefined, time: Date }`
(polarion.ts line 68). -/
structure ItemEntry where
  workitem : Option WorkItemData
  time : Nat

/-- The mutable state of one `Polarion` object: configuration fields set
by the constructor, the `initialized` flag, the six cache tiers and the
exception counter (lines 45-96). -/
structure PolarionState where
  polarionUrl : String
  initialized : Bool
  itemCache : Store ItemEntry
  attachmentCache : Store String
  statusCache : Store StatusCacheEntry
  workitemTypeCache : Store TypeCacheEntry
  iconCache : Store String
  userCache : Store UserCacheEntry
  exceptionCount : Nat

/-- A freshly constructed `Polarion` object after `createPolarion` plus
the outcome `b` of its `initialize` call: empty caches, exception counter
zero (constructor, lines 78-96). -/
def freshPolarion (url : String) (b : Bool) : PolarionState :=
  { polarionUrl := url
    initialized := b
    itemCache := Store.empty
    attachmentCache := Store.empty
    statusCache := Store.empty
    workitemTypeCache := Store.empty
    iconCache := Store.empty
    userCache := Store.empty
    exceptionCount := 0 }

/-- The configuration values read from VS Code settings during resolver
operation: `Polarion.RefreshTime` (minutes) and
`Polarion.ExceptionRestart`. -/
structure Config where
  refreshTime : Option Nat
  exceptionRestart : Option Nat

/-- Staleness test shared by the item, status, type and user cache tiers
(lines 210-217, 418-426, 605-613, 697-705): an entry is stale when the
`RefreshTime` setting is truthy and the absolute elapsed time exceeds
`minutes * 60 * 1000` milliseconds. -/
def staleByConfig (cfg : Config) (now t : Nat) : Bool :=
  match cfg.refreshTime with
  | none => false
  | some minutes =>
    if minutes = 0 then false
    else decide (deltaMs now t > minutes * 60 * 1000)

/-- An axios request error: either an HTTP error response with a status
code (`error.response.status`), or a response-less failure (network
error, timeout, parse failure) carrying only a message. -/
inductive ReqError
  | http (code : Nat)
  | net (msg : String)

/-- Status code of a request error, embedding `error.response?.status`. -/
def ReqError.code : ReqError → Option Nat
  | .http c => some c
  | .net _ => none

/-- A request error that is exception-counted by the resolver: anything
that is not a 404 and not a 401/403 (lines 315-331). -/
def countedError (e : ReqError) : Bool :=
  ¬ (e.code = some 404) ∧ ¬ (e.code = some 401 ∨ e.code = some 403)

/-- The flat attribute fields of a work-item response object (either the
nested `attributes` object or the object's own top-level fields). -/
structure RawAttrs where
  id : Option String := none
  title : Option String := none
  status : Option String := none
  itemType : Option String := none
  project : Option String := none
  description : Option String := none

/-- One element of `response.data.data` for the work-item query.
`selfAttrs` holds the object's own top-level attribute-named fields (the
flat response shape), `attributes` the nested shape when present. -/
structure RawWorkItem where
  id : Option String := none
  selfAttrs : RawAttrs := {}
  attributes : Option RawAttrs := none
  relProjectId : Option String := none
  relAuthorId : Option String := none
  authorIdField : Option String := none

/-- Normalization `workItem.attributes || workItem` (line 260). -/
def effAttrs (w : RawWorkItem) : RawAttrs := w.attributes.getD w.selfAttrs

/-- One enumeration option of a status / workitem-type response. -/
structure RawOption where
  id : Option String := none
  name : Option String := none
  color : Option String := none
  iconURL : Option String := none

/-- The attribute fields of a user response. -/
structure RawUserAttrs where
  name : Option String := none
  email : Option String := none
  initials : Option String := none

/-- The `response.data.data` object of a user lookup. -/
structure RawUser where
  attributes : Option RawUserAttrs := none

/-- Outcome of the work-item query request. -/
inductive ItemOutcome
  | ok (status : Nat) (data : List RawWorkItem)
  | err (e : ReqError)

/-- Outcome of an enumeration (status options / workitem types) request;
`data = none` models a response body without the expected `data` /
`options` member. -/
inductive EnumOutcome
  | ok (status : Nat) (data : Option (List RawOption))
  | err (e : ReqError)

/-- Outcome of a user lookup request. -/
inductive UserOutcome
  | ok (status : Nat) (data : Option RawUser)
  | err (e : ReqError)

/-- Outcome of a binary (icon / attachment) download request. -/
inductive BinOutcome
  | ok (status : Nat) (bytes : List Nat)
  | err (e : ReqError)

/-- Environment oracle for one resolver call: the current clock and the
responses the remote service gives to each request, plus the result of
the `initialize` run on a re-created session. -/
structure Oracles where
  now : Nat
  itemFetch : String → ItemOutcome
  statusFetch : String → String → EnumOutcome
  typeFetch : String → EnumOutcome
  userFetch : String → UserOutcome
  iconFetch : String → BinOutcome
  attachmentFetch : String → String → String → BinOutcome
  restartInit : Bool

/-- Result of a state-threaded helper: the returned value, the updated
state of the session object, and whether a network request was issued. -/
structure MapStep (α : Type) where
  value : α
  self : PolarionState
  didFetch : Bool

/-- Result of `getWorkItemFromPolarion`: the returned value, the updated
state of the session object, and whether `createPolarion` was invoked
(session re-creation). -/
structure FetchStep where
  value : Option WorkItemData
  self : PolarionState
  restarted : Bool

/-- Result of `getWorkItem` / `getUrlFromWorkItem`. -/
structure ResolveStep (α : Type) where
  value : α
  self : PolarionState
  didFetch : Bool
  restarted : Bool

/-- Authentication header built by `setupAuthentication`. -/
inductive AuthHeader
  | bearer (token : String)
  | basic (credentials : String)
  deriving DecidableEq

/-- Test whether a string trims to the empty string, embedding
`s.trim() !== ''` checks: true exactly when every character is
whitespace. -/
def isBlank (s : String) : Bool := s.toList.all fun c => c.isWhitespace

/-- Base64 credentials for basic authentication:
`Buffer.from(user + ':' + pass).toString('base64')` (line 166). -/
def basicCredentials (user pass : String) : String :=
  base64Encode (utf8Bytes (user ++ ":" ++ pass))

/-- Embedding of `Polarion.setupAuthentication` (lines 157-180): Bearer
header when token auth is enabled and a non-blank token is present,
Basic header when token auth is disabled and both credentials are truthy,
otherwise a thrown configuration error. -/
def setupAuthentication (useTokenAuth : Bool) (polarionToken : Option String)
    (user pass : String) : Except String AuthHeader :=
  if useTokenAuth ∧ jsTruthyS polarionToken ∧ ¬ isBlank (polarionToken.getD "") then
    .ok (.bearer (polarionToken.getD ""))
  else if ¬ useTokenAuth ∧ user ≠ "" ∧ pass ≠ "" then
    .ok (.basic (basicCredentials user pass))
  else
    .error "No valid authentication method configured"

/-- Embedding of `retrieveTokenFromSettings` (lines 143-155):
`this.polarionToken = token || null`. -/
def tokenFromSettings (t : Option String) : Option String :=
  match t with
  | some s => if s = "" then none else some s
  | none => none

/-- Outcome of the connectivity probe `GET /polarion/rest/v1/projects`. -/
inductive ProbeOutcome
  | ok (status : Nat)
  | err (code : Option Nat) (msg : String)

/-- Embedding of `testConnection` (lines 182-198): 401/403 become auth
errors, any other request failure a generic connection failure;
a resolved response does not throw. -/
def testConnection (probe : ProbeOutcome) : Except String Unit :=
  match probe with
  | .ok _ => .ok ()
  | .err code msg =>
    if code = some 401 then .error "Authentication failed - check your credentials"
    else if code = some 403 then .error "Access forbidden - check your permissions"
    else .error ("Connection test failed: " ++ msg)

/-- Observable outcome of one `initialize` run. -/
structure InitResult where
  initialized : Bool
  header : Option AuthHeader
  networkCalls : Nat
  errorMsg : Option String
  deriving DecidableEq

/-- Embedding of `Polarion.initialize` (lines 116-141): optionally load
the token from settings, set up authentication, then probe connectivity;
any thrown step leaves `initialized = false`. `networkCalls` counts the
HTTP requests issued (only `testConnection` issues one). -/
def initSession (useTokenAuth : Bool) (settingsToken : Option String)
    (user pass : String) (probe : ProbeOutcome) : InitResult :=
  let polarionToken : Option String :=
    if useTokenAuth then tokenFromSettings settingsToken else none
  match setupAuthentication useTokenAuth polarionToken user pass with
  | .error e => { initialized := false, header := none, networkCalls := 0, errorMsg := some e }
  | .ok hdr =>
    match testConnection probe with
    | .error e =>
      { initialized := false, header := some hdr, networkCalls := 1, errorMsg := some e }
    | .ok _ =>
      { initialized := true, header := some hdr, networkCalls := 1, errorMsg := none }

/-- Embedding of `String.prototype.endsWith`. -/
def jsEndsWith (s t : String) : Bool := List.isSuffixOf t.toList s.toList

/-- Embedding of `String.prototype.slice(0, -n)`: the string without its
last `n` characters. -/
def jsDropRight (s : String) (n : Nat) : String :=
  String.mk (s.toList.take (s.toList.length - n))

/-- Embedding of the URL construction in `getUrlFromWorkItem`
(lines 356-365): ensure a trailing slash, drop a trailing `/polarion/`
via `slice(0, -10)`, then append the web-interface path. -/
def buildItemUrl (polarionUrl projectId itemId : String) : String :=
  let baseUrl := if jsEndsWith polarionUrl "/" then polarionUrl else polarionUrl ++ "/"
  let baseUrl := if jsEndsWith baseUrl "/polarion/" then jsDropRight baseUrl 10 else baseUrl
  baseUrl ++ "polarion/#/project/" ++ projectId ++ "/workitem?id=" ++ itemId

/-- MIME type inferred from the URL's file extension
(`iconURL.split('.').pop()?.toLowerCase()`, lines 524-532). -/
def mimeFromUrl (url : String) : String :=
  let ext := ((url.splitOn ".").getLastD "").toLower
  if ext = "gif" then "image/gif"
  else if ext = "jpg" then "image/jpeg"
  else if ext = "jpeg" then "image/jpeg"
  else if ext = "svg" then "image/svg+xml"
  else "image/png"

/-- Embedding of `downloadStatusIcon` (lines 503-547): cache-first by
icon URL; on miss download, base64-encode into a `data:` URI, cache and
return; non-200 responses and request failures yield `undefined`. -/
def downloadStatusIcon (o : Oracles) (st : PolarionState) (iconURL : String) :
    MapStep (Option String) :=
  match st.iconCache.get iconURL with
  | some v => { value := some v, self := st, didFetch := false }
  | none =>
    match o.iconFetch iconURL with
    | .ok status bytes =>
      if status = 200 then
        let dataUri := "data:" ++ mimeFromUrl iconURL ++ ";base64," ++ base64Encode bytes
        { value := some dataUri
          self := { st with iconCache := st.iconCache.set iconURL dataUri }
          didFetch := true }
      else { value := none, self := st, didFetch := true }
    | .err _ => { value := none, self := st, didFetch := true }

/-- Embedding of `downloadWorkitemTypeIcon` (lines 774-777), which reuses
the status-icon download. -/
def downloadWorkitemTypeIcon (o : Oracles) (st : PolarionState) (iconURL : String) :
    MapStep (Option String) :=
  downloadStatusIcon o st iconURL

/-- Embedding of `downloadWorkitemAttachmentForProject` (lines 549-586):
cache-first by `workitemId:attachmentId` (a cached empty string is
returned as `null` via `|| null`); on miss download, base64-encode,
cache and return; non-200 responses and request failures yield `null`. -/
def downloadWorkitemAttachmentForProject (o : Oracles) (st : PolarionState)
    (workitemId attachmentId projectId : String) : MapStep (Option String) :=
  let cacheKey := workitemId ++ ":" ++ attachmentId
  match st.attachmentCache.get cacheKey with
  | some v =>
    { value := if v = "" then none else some v, self := st, didFetch := false }
  | none =>
    match o.attachmentFetch workitemId attachmentId projectId with
    | .ok status bytes =>
      if status = 200 then
        let base64Data := base64Encode bytes
        { value := some base64Data
          self := { st with attachmentCache := st.attachmentCache.set cacheKey base64Data }
          didFetch := true }
      else { value := none, self := st, didFetch := true }
    | .err _ => { value := none, self := st, didFetch := true }

/-- The option-processing loop of `fetchStatusMappingsFromPolarion`
(lines 456-478): options with truthy `id` and `name` are mapped to
`{ name, color: option.color || '#000000' }`, an icon is downloaded when
a truthy `iconURL` is present, all other options are skipped. -/
def processStatusOptions (o : Oracles) :
    List RawOption → Store StatusEntryVal → PolarionState →
    Store StatusEntryVal × PolarionState
  | [], m, st => (m, st)
  | opt :: rest, m, st =>
    if jsTruthyS opt.id ∧ jsTruthyS opt.name then
      let iconStep :=
        if jsTruthyS opt.iconURL then downloadStatusIcon o st (opt.iconURL.getD "")
        else { value := none, self := st, didFetch := false }
      let info : StatusEntryVal :=
        { name := opt.name.getD ""
          color := jsOrS opt.color "#000000"
          iconPath := if jsTruthyS iconStep.value then iconStep.value else none }
      processStatusOptions o rest (m.set (opt.id.getD "") info) iconStep.self
    else
      processStatusOptions o rest m st

/-- Embedding of `fetchStatusMappingsFromPolarion` (lines 437-501): on a
200 response with a `data` member the processed mapping is cached under
`projectId:workitemType` with a fresh timestamp; on any other resolved
response nothing is cached; on a request failure an empty, timestamped
mapping is cached. -/
def fetchStatusMappingsFromPolarion (o : Oracles) (st : PolarionState)
    (projectId workitemType : String) : PolarionState :=
  let cacheKey := projectId ++ ":" ++ workitemType
  match o.statusFetch projectId workitemType with
  | .ok status data =>
    match data with
    | some statusOptions =>
      if status = 200 then
        let (statusMap, st') := processStatusOptions o statusOptions Store.empty st
        { st' with statusCache :=
            st'.statusCache.set cacheKey { statuses := statusMap, time := o.now } }
      else st
    | none => st
  | .err _ =>
    { st with statusCache :=
        st.statusCache.set cacheKey { statuses := Store.empty, time := o.now } }

/-- Embedding of `getStatusMappings` (lines 406-435): empty mapping when
not initialized; otherwise refresh-and-cache keyed by
`projectId:workitemType` with the shared staleness rule. -/
def getStatusMappings (cfg : Config) (o : Oracles) (st : PolarionState)
    (projectId workitemType : String) : MapStep (Store StatusEntryVal) :=
  if st.initialized = false then
    { value := Store.empty, self := st, didFetch := false }
  else
    let cacheKey := projectId ++ ":" ++ workitemType
    let fetchStatuses :=
      match st.statusCache.get cacheKey with
      | none => true
      | some cachedData => staleByConfig cfg o.now cachedData.time
    let st' :=
      if fetchStatuses then fetchStatusMappingsFromPolarion o st projectId workitemType
      else st
    match st'.statusCache.get cacheKey with
    | some cachedData =>
      { value := cachedData.statuses, self := st', didFetch := fetchStatuses }
    | none => { value := Store.empty, self := st', didFetch := fetchStatuses }

/-- Display record returned by `getStatusDisplayInfo`:
`{ name: string, color?: string, iconPath?: string }`. -/
structure StatusDisplay where
  name : String
  color : Option String := none
  iconPath : Option String := none
  deriving DecidableEq

/-- Embedding of `getStatusDisplayInfo` (lines 395-404): look the status
id up in the resolved mapping, or echo the raw id as the name. -/
def getStatusDisplayInfo (cfg : Config) (o : Oracles) (st : PolarionState)
    (statusId projectId workitemType : String) : StatusDisplay × PolarionState :=
  let step := getStatusMappings cfg o st projectId workitemType
  match step.value.get statusId with
  | some statusInfo =>
    ({ name := statusInfo.name, color := some statusInfo.color,
       iconPath := statusInfo.iconPath }, step.self)
  | none => ({ name := statusId }, step.self)

/-- The option-processing loop of `fetchWorkitemTypeMappingsFromPolarion`
(lines 730-751). -/
def processTypeOptions (o : Oracles) :
    List RawOption → Store TypeEntryVal → PolarionState →
    Store TypeEntryVal × PolarionState
  | [], m, st => (m, st)
  | opt :: rest, m, st =>
    if jsTruthyS opt.id ∧ jsTruthyS opt.name then
      let iconStep :=
        if jsTruthyS opt.iconURL then downloadWorkitemTypeIcon o st (opt.iconURL.getD "")
        else { value := none, self := st, didFetch := false }
      let info : TypeEntryVal :=
        { name := opt.name.getD ""
          iconPath := if jsTruthyS iconStep.value then iconStep.value else none }
      processTypeOptions o rest (m.set (opt.id.getD "") info) iconStep.self
    else
      processTypeOptions o rest m st

/-- Embedding of `fetchWorkitemTypeMappingsFromPolarion`
(lines 716-772): like the status fetch but keyed by project id, reading
`response.data.data.attributes.options`. -/
def fetchWorkitemTypeMappingsFromPolarion (o : Oracles) (st : PolarionState)
    (projectId : String) : PolarionState :=
  match o.typeFetch projectId with
  | .ok status data =>
    match data with
    | some typeOptions =>
      if status = 200 then
        let (typeMap, st') := processTypeOptions o typeOptions Store.empty st
        { st' with workitemTypeCache :=
            st'.workitemTypeCache.set projectId { types := typeMap, time := o.now } }
      else st
    | none => st
  | .err _ =>
    { st with workitemTypeCache :=
        st.workitemTypeCache.set projectId { types := Store.empty, time := o.now } }

/-- Embedding of `getWorkitemTypeMappings` (lines 686-714). -/
def getWorkitemTypeMappings (cfg : Config) (o : Oracles) (st : PolarionState)
    (projectId : String) : MapStep (Store TypeEntryVal) :=
  if st.initialized = false then
    { value := Store.empty, self := st, didFetch := false }
  else
    let fetchTypes :=
      match st.workitemTypeCache.get projectId with
      | none => true
      | some cachedData => staleByConfig cfg o.now cachedData.time
    let st' :=
      if fetchTypes then fetchWorkitemTypeMappingsFromPolarion o st projectId
      else st
    match st'.workitemTypeCache.get projectId with
    | some cachedData =>
      { value := cachedData.types, self := st', didFetch := fetchTypes }
    | none => { value := Store.empty, self := st', didFetch := fetchTypes }

/-- Display record returned by `getWorkitemTypeDisplayInfo`:
`{ name: string, iconPath?: string }`. -/
structure TypeDisplay where
  name : String
  iconPath : Option String := none
  deriving DecidableEq

/-- Embedding of `getWorkitemTypeDisplayInfo` (lines 675-684): look the
type id up in the resolved mapping, or echo the raw id as the name. -/
def getWorkitemTypeDisplayInfo (cfg : Config) (o : Oracles) (st : PolarionState)
    (typeId projectId : String) : TypeDisplay × PolarionState :=
  let step := getWorkitemTypeMappings cfg o st projectId
  match step.value.get typeId with
  | some typeInfo => ({ name := typeInfo.name, iconPath := typeInfo.iconPath }, step.self)
  | none => ({ name := typeId }, step.self)

/-- Embedding of `fetchUserFromPolarion` (lines 624-673): a 200 response
with a `data` member caches `{ name: attributes.name || userId, email,
initials }`; every other outcome caches the fallback `{ name: userId }`,
always with a fresh timestamp. -/
def fetchUserFromPolarion (o : Oracles) (st : PolarionState) (userId : String) :
    PolarionState :=
  match o.userFetch userId with
  | .ok status data =>
    match data with
    | some userData =>
      if status = 200 then
        let attrs := userData.attributes.getD {}
        let userInfo : UserVal :=
          { name := jsOrS attrs.name userId, email := attrs.email,
            initials := attrs.initials }
        { st with userCache :=
            st.userCache.set userId { user := userInfo, time := o.now } }
      else
        { st with userCache :=
            st.userCache.set userId { user := { name := userId }, time := o.now } }
    | none =>
      { st with userCache :=
          st.userCache.set userId { user := { name := userId }, time := o.now } }
  | .err _ =>
    { st with userCache :=
        st.userCache.set userId { user := { name := userId }, time := o.now } }

/-- Embedding of `getUserInfo` (lines 594-622): fallback `{ name: userId }`
when not initialized; otherwise refresh-and-cache keyed by user id, with
the final cache lookup falling back to `{ name: userId }`. -/
def getUserInfo (cfg : Config) (o : Oracles) (st : PolarionState) (userId : String) :
    MapStep UserVal :=
  if st.initialized = false then
    { value := { name := userId }, self := st, didFetch := false }
  else
    let fetchUser :=
      match st.userCache.get userId with
      | none => true
      | some cachedData => staleByConfig cfg o.now cachedData.time
    let st' := if fetchUser then fetchUserFromPolarion o st userId else st
    match st'.userCache.get userId with
    | some cachedData => { value := cachedData.user, self := st', didFetch := fetchUser }
    | none => { value := { name := userId }, self := st', didFetch := fetchUser }

/-- Embedding of `getUserDisplayInfo` (lines 588-592), which delegates to
`getUserInfo`. -/
def getUserDisplayInfo (cfg : Config) (o : Oracles) (st : PolarionState)
    (userId : String) : MapStep UserVal :=
  getUserInfo cfg o st userId

/-- Embedding of `getWorkItemFromPolarion` (lines 237-335): return
`undefined` without a request when not initialized; on a 200 response
with at least one result, normalize the first result and enrich it via
the status, type and user resolvers; on a 404 or 401/403 failure return
`undefined` silently; on any other failure apply the exception-restart
policy (`createPolarion` when the counter already exceeds a truthy
configured limit, otherwise increment the counter) and return
`undefined`. `restarted` records whether `createPolarion` was invoked. -/
def getWorkItemFromPolarion (cfg : Config) (o : Oracles) (st : PolarionState)
    (itemId : String) : FetchStep :=
  if st.initialized = false then
    { value := none, self := st, restarted := false }
  else
    match o.itemFetch itemId with
    | .ok status data =>
      match data with
      | [] => { value := none, self := st, restarted := false }
      | workItem :: _ =>
        if status = 200 then
          let attributes := effAttrs workItem
          let projectId := jsOrS (jsOrOptS workItem.relProjectId attributes.project) "unknown"
          let statusId := jsOrS (jsOrOptS attributes.status workItem.selfAttrs.status) "unknown"
          let workitemType := jsOrS (jsOrOptS attributes.itemType workItem.selfAttrs.itemType) "unknown"
          let (statusInfo, st1) := getStatusDisplayInfo cfg o st statusId projectId workitemType
          let (typeInfo, st2) := getWorkitemTypeDisplayInfo cfg o st1 workitemType projectId
          let authorId := jsOrS (jsOrOptS workItem.relAuthorId workItem.authorIdField) "unknown"
          let authorStep := getUserDisplayInfo cfg o st2 authorId
          { value := some
              { id := jsOrOptS workItem.id attributes.id
                title := jsOrS attributes.title "No title"
                itemType :=
                  { id := workitemType, name := some typeInfo.name,
                    iconPath := typeInfo.iconPath }
                author :=
                  { id := authorId, name := some authorStep.value.name,
                    email := authorStep.value.email,
                    initials := authorStep.value.initials }
                status :=
                  { id := statusId, name := some statusInfo.name,
                    color := statusInfo.color, iconPath := statusInfo.iconPath }
                description :=
                  if jsTruthyS attributes.description then attributes.description
                  else if jsTruthyS workItem.selfAttrs.description then
                    workItem.selfAttrs.description
                  else none
                unresolvable := "false"
                projectId := projectId }
            self := authorStep.self
            restarted := false }
        else { value := none, self := st, restarted := false }
    | .err e =>
      if e.code = some 404 then
        { value := none, self := st, restarted := false }
      else if e.code = some 401 ∨ e.code = some 403 then
        { value := none, self := st, restarted := false }
      else
        match cfg.exceptionRestart with
        | none => { value := none, self := st, restarted := false }
        | some exceptionLimit =>
          if exceptionLimit = 0 then
            { value := none, self := st, restarted := false }
          else if st.exceptionCount > exceptionLimit ∧ exceptionLimit > 0 then
            { value := none, self := st, restarted := true }
          else
            { value := none
              self := { st with exceptionCount := st.exceptionCount + 1 }
              restarted := false }

/-- The session object observed by callers after a resolver step: the
re-created session when `createPolarion` was invoked (fresh object whose
`initialize` outcome is the oracle's `restartInit`), otherwise the
stepped state of the existing object. -/
def sessionAfter (o : Oracles) (url : String) (r : FetchStep) : PolarionState :=
  if r.restarted then freshPolarion url o.restartInit else r.self

/-- Embedding of `getWorkItem` (lines 200-235): decide whether to fetch
(only on an initialized session: cache miss, or cached entry stale per
the `RefreshTime` rule); on fetch, store the result — whatever it is —
with a fresh timestamp; finally return the cached value, if any. -/
def getWorkItem (cfg : Config) (o : Oracles) (st : PolarionState)
    (workItem : String) : ResolveStep (Option WorkItemData) :=
  let fetchItem :=
    if st.initialized then
      match st.itemCache.get workItem with
      | none => true
      | some item => staleByConfig cfg o.now item.time
    else false
  if fetchItem then
    let step := getWorkItemFromPolarion cfg o st workItem
    let st2 :=
      { step.self with itemCache :=
          step.self.itemCache.set workItem { workitem := step.value, time := o.now } }
    let result :=
      match st2.itemCache.get workItem with
      | some item => item.workitem
      | none => none
    { value := result, self := st2, didFetch := true, restarted := step.restarted }
  else
    let result :=
      match st.itemCache.get workItem with
      | some item => item.workitem
      | none => none
    { value := result, self := st, didFetch := false, restarted := false }

/-- Embedding of `getTitleFromWorkItem` (lines 337-346). -/
def getTitleFromWorkItem (cfg : Config) (o : Oracles) (st : PolarionState)
    (itemId : String) : ResolveStep (Option String) :=
  let r := getWorkItem cfg o st itemId
  match r.value with
  | some workItem =>
    { value := some workItem.title, self := r.self,
      didFetch := r.didFetch, restarted := r.restarted }
  | none =>
    { value := none, self := r.self, didFetch := r.didFetch, restarted := r.restarted }

/-- Embedding of `getUrlFromWorkItem` (lines 348-366): resolve the item;
`undefined` when it is absent, otherwise the constructed web-interface
URL using the item's project id. -/
def getUrlFromWorkItem (cfg : Config) (o : Oracles) (st : PolarionState)
    (itemId : String) : ResolveStep (Option String) :=
  let r := getWorkItem cfg o st itemId
  match r.value with
  | none =>
    { value := none, self := r.self, didFetch := r.didFetch, restarted := r.restarted }
  | some workItem =>
    { value := some (buildItemUrl st.polarionUrl workItem.projectId itemId)
      self := r.self, didFetch := r.didFetch, restarted := r.restarted }

/-- Iterated consecutive failing resolves on the same session object:
`failIter cfg o itemId k st` is the object's state after `k` calls of
`getWorkItemFromPolarion`. -/
def failIter (cfg : Config) (o : Oracles) (itemId : String) :
    Nat → PolarionState → PolarionState
  | 0, st => st
  | Nat.succ k, st => failIter cfg o itemId k (getWorkItemFromPolarion cfg o st itemId).self

theorem Store.get_set_self {α : Type} (m : Store α) (k : String) (v : α) :
    (m.set k v).get k = some v := by
  simp [Store.get, Store.set]

theorem Store.get_set_of_ne {α : Type} (m : Store α) (k k' : String) (v : α)
    (h : k' ≠ k) : (m.set k v).get k' = m.get k' := by
  simp [Store.get, Store.set, h]

/-- Fields of the session state that the enumeration / icon / user
sub-resolvers never touch: they only write to their own cache tiers. -/
def CachePres (st st' : PolarionState) : Prop :=
  st'.polarionUrl = st.polarionUrl ∧ st'.initialized = st.initialized ∧
  st'.itemCache = st.itemCache ∧ st'.exceptionCount = st.exceptionCount

theorem cachePres_refl (st : PolarionState) : CachePres st st := ⟨rfl, rfl, rfl, rfl⟩

theorem cachePres_trans {a b c : PolarionState} (h1 : CachePres a b)
    (h2 : CachePres b c) : CachePres a c :=
  ⟨h2.1.trans h1.1, h2.2.1.trans h1.2.1, h2.2.2.1.trans h1.2.2.1,
   h2.2.2.2.trans h1.2.2.2⟩

theorem downloadStatusIcon_pres (o : Oracles) (st : PolarionState) (url : String) :
    CachePres st (downloadStatusIcon o st url).self := by
  unfold downloadStatusIcon
  split
  · exact cachePres_refl st
  · split
    · split
      · exact ⟨rfl, rfl, rfl, rfl⟩
      · exact cachePres_refl st
    · exact cachePres_refl st

theorem processStatusOptions_pres (o : Oracles) : ∀ (opts : List RawOption)
    (m : Store StatusEntryVal) (st : PolarionState),
    CachePres st (processStatusOptions o opts m st).2
  | [], _, st => cachePres_refl st
  | opt :: rest, m, st => by
    unfold processStatusOptions
    split
    · refine cachePres_trans ?_ (processStatusOptions_pres o rest _ _)
      split
      · exact downloadStatusIcon_pres o st _
      · exact cachePres_refl st
    · exact processStatusOptions_pres o rest m st

theorem fetchStatusMappingsFromPolarion_pres (o : Oracles) (st : PolarionState)
    (projectId workitemType : String) :
    CachePres st (fetchStatusMappingsFromPolarion o st projectId workitemType) := by
  unfold fetchStatusMappingsFromPolarion
  split
  · split
    · split
      · refine cachePres_trans ?_ ⟨rfl, rfl, rfl, rfl⟩
        exact processStatusOptions_pres o _ _ st
      · exact cachePres_refl st
    · exact cachePres_refl st
  · exact ⟨rfl, rfl, rfl, rfl⟩

theorem getStatusMappings_pres (cfg : Config) (o : Oracles) (st : PolarionState)
    (projectId workitemType : String) :
    CachePres st (getStatusMappings cfg o st projectId workitemType).self := by
  unfold getStatusMappings
  split
  · exact cachePres_refl st
  · have hst' : CachePres st
        (if (match st.statusCache.get (projectId ++ ":" ++ workitemType) with
             | none => true
             | some cachedData => staleByConfig cfg o.now cachedData.time) = true then
          fetchStatusMappingsFromPolarion o st projectId workitemType else st) := by
      split
      · exact fetchStatusMappingsFromPolarion_pres o st projectId workitemType
      · exact cachePres_refl st
    dsimp only
    split <;> exact hst'

theorem getStatusDisplayInfo_pres (cfg : Config) (o : Oracles) (st : PolarionState)
    (statusId projectId workitemType : String) :
    CachePres st (getStatusDisplayInfo cfg o st statusId projectId workitemType).2 := by
  unfold getStatusDisplayInfo
  dsimp only
  split <;> exact getStatusMappings_pres cfg o st projectId workitemType

theorem processTypeOptions_pres (o : Oracles) : ∀ (opts : List RawOption)
    (m : Store TypeEntryVal) (st : PolarionState),
    CachePres st (processTypeOptions o opts m st).2
  | [], _, st => cachePres_refl st
  | opt :: rest, m, st => by
    unfold processTypeOptions
    split
    · refine cachePres_trans ?_ (processTypeOptions_pres o rest _ _)
      split
      · exact downloadStatusIcon_pres o st _
      · exact cachePres_refl st
    · exact processTypeOptions_pres o rest m st

theorem fetchWorkitemTypeMappingsFromPolarion_pres (o : Oracles) (st : PolarionState)
    (projectId : String) :
    CachePres st (fetchWorkitemTypeMappingsFromPolarion o st projectId) := by
  unfold fetchWorkitemTypeMappingsFromPolarion
  split
  · split
    · split
      · refine cachePres_trans ?_ ⟨rfl, rfl, rfl, rfl⟩
        exact processTypeOptions_pres o _ _ st
      · exact cachePres_refl st
    · exact cachePres_refl st
  · exact ⟨rfl, rfl, rfl, rfl⟩

theorem getWorkitemTypeMappings_pres (cfg : Config) (o : Oracles) (st : PolarionState)
    (projectId : String) :
    CachePres st (getWorkitemTypeMappings cfg o st projectId).self := by
  unfold getWorkitemTypeMappings
  split
  · exact cachePres_refl st
  · have hst' : CachePres st
        (if (match st.workitemTypeCache.get projectId with
             | none => true
             | some cachedData => staleByConfig cfg o.now cachedData.time) = true then
          fetchWorkitemTypeMappingsFromPolarion o st projectId else st) := by
      split
      · exact fetchWorkitemTypeMappingsFromPolarion_pres o st projectId
      · exact cachePres_refl st
    dsimp only
    split <;> exact hst'

theorem getWorkitemTypeDisplayInfo_pres (cfg : Config) (o : Oracles) (st : PolarionState)
    (typeId projectId : String) :
    CachePres st (getWorkitemTypeDisplayInfo cfg o st typeId projectId).2 := by
  unfold getWorkitemTypeDisplayInfo
  dsimp only
  split <;> exact getWorkitemTypeMappings_pres cfg o st projectId

theorem fetchUserFromPolarion_pres (o : Oracles) (st : PolarionState) (userId : String) :
    CachePres st (fetchUserFromPolarion o st userId) := by
  unfold fetchUserFromPolarion
  split
  · split
    · split <;> exact ⟨rfl, rfl, rfl, rfl⟩
    · exact ⟨rfl, rfl, rfl, rfl⟩
  · exact ⟨rfl, rfl, rfl, rfl⟩

theorem getUserInfo_pres (cfg : Config) (o : Oracles) (st : PolarionState)
    (userId : String) : CachePres st (getUserInfo cfg o st userId).self := by
  unfold getUserInfo
  split
  · exact cachePres_refl st
  · have hst' : CachePres st
        (if (match st.userCache.get userId with
             | none => true
             | some cachedData => staleByConfig cfg o.now cachedData.time) = true then
          fetchUserFromPolarion o st userId else st) := by
      split
      · exact fetchUserFromPolarion_pres o st userId
      · exact cachePres_refl st
    dsimp only
    split <;> exact hst'

theorem getUserDisplayInfo_pres (cfg : Config) (o : Oracles) (st : PolarionState)
    (userId : String) : CachePres st (getUserDisplayInfo cfg o st userId).self :=
  getUserInfo_pres cfg o st userId

/-- Fields preserved by `getWorkItemFromPolarion` on the session object it
runs on: the URL, the `initialized` flag and the item cache (the item
cache is written by `getWorkItem`, not by the fetch itself). -/
def FetchPres (st st' : PolarionState) : Prop :=
  st'.polarionUrl = st.polarionUrl ∧ st'.initialized = st.initialized ∧
  st'.itemCache = st.itemCache

theorem fetchPres_of_cachePres {a b : PolarionState} (h : CachePres a b) :
    FetchPres a b := ⟨h.1, h.2.1, h.2.2.1⟩

theorem getWorkItemFromPolarion_pres (cfg : Config) (o : Oracles) (st : PolarionState)
    (itemId : String) : FetchPres st (getWorkItemFromPolarion cfg o st itemId).self := by
  unfold getWorkItemFromPolarion
  split
  · exact ⟨rfl, rfl, rfl⟩
  · split
    · split
      · exact ⟨rfl, rfl, rfl⟩
      · split
        · dsimp only
          exact fetchPres_of_cachePres
            (cachePres_trans (cachePres_trans (getStatusDisplayInfo_pres _ _ _ _ _ _)
              (getWorkitemTypeDisplayInfo_pres _ _ _ _ _)) (getUserDisplayInfo_pres _ _ _ _))
        · exact ⟨rfl, rfl, rfl⟩
    · split
      · exact ⟨rfl, rfl, rfl⟩
      · split
        · exact ⟨rfl, rfl, rfl⟩
        · split
          · exact ⟨rfl, rfl, rfl⟩
          · split
            · exact ⟨rfl, rfl, rfl⟩
            · split
              · exact ⟨rfl, rfl, rfl⟩
              · exact ⟨rfl, rfl, rfl⟩

/-- A concrete oracle environment in which every request fails with a
404 or a network error; used to instantiate theorems at closed inputs. -/
def errOracles : Oracles :=
  { now := 0
    itemFetch := fun _ => .err (.http 404)
    statusFetch := fun _ _ => .err (.net "down")
    typeFetch := fun _ => .err (.net "down")
    userFetch := fun _ => .err (.net "down")
    iconFetch := fun _ => .err (.net "down")
    attachmentFetch := fun _ _ _ => .err (.net "down")
    restartInit := false }

/-- A concrete configuration: refresh after 5 minutes, no exception
restart threshold. -/
def cfg5 : Config := { refreshTime := some 5, exceptionRestart := none }

/-- A concrete resolved work item used in closed instances. -/
def wiSample : WorkItemData :=
  { id := some "AB-1"
    title := "Sample item"
    itemType := { id := "task" }
    author := { id := "u1" }
    status := { id := "open" }
    description := none
    unresolvable := "false"
    projectId := "P" }

/-- A session object that is not initialized but whose item cache holds
an entry for `AB-1` (the state of an object whose later `initialize`
attempt failed after a successful resolve). -/
def stUninitCached : PolarionState :=
  { freshPolarion "https://example.com" false with
      itemCache := Store.empty.set "AB-1" { workitem := some wiSample, time := 0 } }

/-- C6 (confirmed): for every status, type, or user id whose resolved
enumeration mapping contains no entry for that id, the corresponding
display resolver returns the raw id echoed back as the name (and, being
a total function, never fails or throws). -/
theorem fallback_identity_law (cfg : Config) (o : Oracles) (st : PolarionState)
    (statusId projectId workitemType typeId userId : String) :
    ((getStatusMappings cfg o st projectId workitemType).value.get statusId = none →
      (getStatusDisplayInfo cfg o st statusId projectId workitemType).1 =
        { name := statusId }) ∧
    ((getWorkitemTypeMappings cfg o st projectId).value.get typeId = none →
      (getWorkitemTypeDisplayInfo cfg o st typeId projectId).1 = { name := typeId }) ∧
    ((getUserInfo cfg o st userId).self.userCache.get userId = none →
      (getUserInfo cfg o st userId).value = { name := userId }) := by
  refine ⟨fun h => ?_, fun h => ?_, fun h => ?_⟩
  · unfold getStatusDisplayInfo
    dsimp only
    split
    · simp_all
    · rfl
  · unfold getWorkitemTypeDisplayInfo
    dsimp only
    split
    · simp_all
    · rfl
  · unfold getUserInfo at h ⊢
    split at h
    next hi => rw [if_pos hi]
    next hi =>
      rw [if_neg hi]
      dsimp only at h ⊢
      split at h
      next cd heq => simp_all
      next heq => simp_all

/-- Closed instance of `fallback_identity_law` on an uninitialized fresh
session, where all three mappings are empty. -/
theorem fallback_identity_law_witness :
    (getStatusDisplayInfo cfg5 errOracles (freshPolarion "https://example.com" false)
        "open" "P" "task").1 = { name := "open" } ∧
    (getWorkitemTypeDisplayInfo cfg5 errOracles (freshPolarion "https://example.com" false)
        "task" "P").1 = { name := "task" } ∧
    (getUserInfo cfg5 errOracles (freshPolarion "https://example.com" false)
        "u1").value = { name := "u1" } :=
  ⟨(fallback_identity_law cfg5 errOracles _ "open" "P" "task" "task" "u1").1 rfl,
   (fallback_identity_law cfg5 errOracles _ "open" "P" "task" "task" "u1").2.1 rfl,
   (fallback_identity_law cfg5 errOracles _ "open" "P" "task" "task" "u1").2.2 rfl⟩

/-- C9 (confirmed): whenever `getWorkItem` resolves an id to `undefined`,
`getUrlFromWorkItem` for the same id on the same state returns
`undefined` — no partial or fabricated URL is produced. -/
theorem resolve_url_absent (cfg : Config) (o : Oracles) (st : PolarionState)
    (itemId : String) (h : (getWorkItem cfg o st itemId).value = none) :
    (getUrlFromWorkItem cfg o st itemId).value = none := by
  unfold getUrlFromWorkItem
  dsimp only
  split <;> simp_all

/-- Closed instance of `resolve_url_absent`: an uninitialized fresh
session resolves `AB-1` to `undefined`, so the URL is `undefined`. -/
theorem resolve_url_absent_witness :
    (getUrlFromWorkItem cfg5 errOracles (freshPolarion "https://example.com" false)
      "AB-1").value = none :=
  resolve_url_absent cfg5 errOracles _ "AB-1" rfl

/-- C3 counterexample: on an uninitialized session whose item cache holds
an entry for the requested id, `getWorkItem` returns the cached item —
not `undefined` — because the final cache lookup (lines 229-234) is
performed regardless of the `initialized` flag. -/
theorem uninit_resolve_reads_cache_cex :
    (getWorkItem cfg5 errOracles stUninitCached "AB-1").value = some wiSample := by
  rfl

/-- C3 amended: if the session is not initialized, `getWorkItem` issues
no fetch, does not mutate any cache (the state is unchanged) and does not
restart; its result is whatever the item cache already holds for the id
(`undefined` only when the cache has no entry or caches `undefined`). -/
theorem uninit_resolve_amended (cfg : Config) (o : Oracles) (st : PolarionState)
    (itemId : String) (h : st.initialized = false) :
    (getWorkItem cfg o st itemId).didFetch = false ∧
    (getWorkItem cfg o st itemId).self = st ∧
    (getWorkItem cfg o st itemId).restarted = false ∧
    (getWorkItem cfg o st itemId).value =
      (st.itemCache.get itemId).bind ItemEntry.workitem := by
  unfold getWorkItem
  simp only [h, Bool.false_eq_true, if_false]
  refine ⟨trivial, trivial, trivial, ?_⟩
  dsimp only
  split <;> simp_all

/-- Closed instance of `uninit_resolve_amended` at the cached
uninitialized state. -/
theorem uninit_resolve_amended_witness :
    (getWorkItem cfg5 errOracles stUninitCached "AB-1").didFetch = false ∧
    (getWorkItem cfg5 errOracles stUninitCached "AB-1").self = stUninitCached ∧
    (getWorkItem cfg5 errOracles stUninitCached "AB-1").restarted = false ∧
    (getWorkItem cfg5 errOracles stUninitCached "AB-1").value =
      (stUninitCached.itemCache.get "AB-1").bind ItemEntry.workitem :=
  uninit_resolve_amended cfg5 errOracles stUninitCached "AB-1" rfl

/-- C7 (confirmed): with token auth disabled and truthy basic credentials
the session's `Authorization` header is Basic base64(user:pass) whatever
token is around; with token auth enabled and an empty or whitespace-only
token, `initialize` throws the configuration error before any network
request, leaving `initialized = false`. -/
theorem auth_fallback_precedence :
    (∀ (tok : Option String) (user pass : String) (probe : ProbeOutcome),
      user ≠ "" → pass ≠ "" →
      (initSession false tok user pass probe).header =
        some (.basic (basicCredentials user pass))) ∧
    (∀ (tok : String) (user pass : String) (probe : ProbeOutcome),
      isBlank tok = true →
      (initSession true (some tok) user pass probe).initialized = false ∧
      (initSession true (some tok) user pass probe).networkCalls = 0 ∧
      (initSession true (some tok) user pass probe).errorMsg =
        some "No valid authentication method configured") := by
  constructor
  · intro tok user pass probe hu hp
    unfold initSession setupAuthentication
    simp
    rw [if_pos ⟨hu, hp⟩]
    dsimp only
    split <;> rfl
  · intro tok user pass probe htrim
    unfold initSession setupAuthentication tokenFromSettings
    by_cases h0 : tok = ""
    · simp [h0, jsTruthyS]
    · simp [h0, jsTruthyS, htrim]

/-- Closed instance of `auth_fallback_precedence`: basic credentials win
when token auth is off, and a whitespace-only token makes `initialize`
fail with zero network calls. -/
theorem auth_fallback_precedence_witness :
    (initSession false (some "sometoken") "alice" "pw" (.ok 200)).header =
      some (.basic (basicCredentials "alice" "pw")) ∧
    (initSession true (some "  ") "alice" "pw" (.ok 200)).initialized = false ∧
    (initSession true (some "  ") "alice" "pw" (.ok 200)).networkCalls = 0 :=
  ⟨auth_fallback_precedence.1 (some "sometoken") "alice" "pw" (.ok 200)
      (by decide) (by decide),
   (auth_fallback_precedence.2 "  " "alice" "pw" (.ok 200) (by decide)).1,
   (auth_fallback_precedence.2 "  " "alice" "pw" (.ok 200) (by decide)).2.1⟩

/-- C2 failing input (code bug): for the documented base URL shape
`https://example.com/polarion`, the `/polarion/` de-duplication removes
ten characters — the segment together with its leading separator slash —
so the produced URL glues `polarion` directly onto the host and does not
contain the path `/polarion/#/project/...` at all. -/
theorem url_dedup_drops_separator :
    buildItemUrl "https://example.com/polarion" "P" "AB-1" =
      "https://example.compolarion/#/project/P/workitem?id=AB-1" := by
  decide

/-- C8 (confirmed): every request failure degrades at the resolver
boundary — the item fetch returns `undefined`, the icon download
`undefined`, the attachment download `null` — instead of propagating the
exception to the caller. -/
theorem resolver_error_degrades :
    (∀ (cfg : Config) (o : Oracles) (st : PolarionState) (itemId : String) (e : ReqError),
      o.itemFetch itemId = .err e →
      (getWorkItemFromPolarion cfg o st itemId).value = none) ∧
    (∀ (o : Oracles) (st : PolarionState) (url : String) (e : ReqError),
      st.iconCache.get url = none → o.iconFetch url = .err e →
      (downloadStatusIcon o st url).value = none) ∧
    (∀ (o : Oracles) (st : PolarionState) (w a p : String) (e : ReqError),
      st.attachmentCache.get (w ++ ":" ++ a) = none →
      o.attachmentFetch w a p = .err e →
      (downloadWorkitemAttachmentForProject o st w a p).value = none) := by
  refine ⟨fun cfg o st itemId e hf => ?_, fun o st url e hc hf => ?_,
    fun o st w a p e hc hf => ?_⟩
  · unfold getWorkItemFromPolarion
    split
    · rfl
    · simp only [hf]
      split
      · rfl
      · split
        · rfl
        · split
          · rfl
          · split
            · rfl
            · split
              · rfl
              · rfl
  · unfold downloadStatusIcon
    simp only [hc, hf]
  · unfold downloadWorkitemAttachmentForProject
    dsimp only
    simp only [hc, hf]

/-- Closed instance of `resolver_error_degrades` at concrete failing
requests. -/
theorem resolver_error_degrades_witness :
    (getWorkItemFromPolarion cfg5
        { errOracles with itemFetch := fun _ => .err (.net "boom") }
        (freshPolarion "https://example.com" true) "AB-1").value = none ∧
    (downloadStatusIcon errOracles (freshPolarion "https://example.com" true)
        "http://x/i.png").value = none ∧
    (downloadWorkitemAttachmentForProject errOracles
        (freshPolarion "https://example.com" true) "AB-1" "att1" "P").value = none :=
  ⟨resolver_error_degrades.1 cfg5 _ _ "AB-1" (.net "boom") rfl,
   resolver_error_degrades.2.1 errOracles _ "http://x/i.png" (.net "down") rfl rfl,
   resolver_error_degrades.2.2 errOracles _ "AB-1" "att1" "P" (.net "down") rfl rfl⟩

theorem getWorkItem_miss (cfg : Config) (o : Oracles) (st : PolarionState)
    (itemId : String) (hinit : st.initialized = true)
    (hmiss : st.itemCache.get itemId = none) :
    getWorkItem cfg o st itemId =
      { value := (getWorkItemFromPolarion cfg o st itemId).value
        self := { (getWorkItemFromPolarion cfg o st itemId).self with
            itemCache := (getWorkItemFromPolarion cfg o st itemId).self.itemCache.set itemId
              { workitem := (getWorkItemFromPolarion cfg o st itemId).value, time := o.now } }
        didFetch := true
        restarted := (getWorkItemFromPolarion cfg o st itemId).restarted } := by
  unfold getWorkItem
  simp only [hinit, hmiss, if_true]
  simp [Store.get_set_self]

theorem getWorkItem_hit_fresh (cfg : Config) (o : Oracles) (st : PolarionState)
    (itemId : String) (entry : ItemEntry)
    (hhit : st.itemCache.get itemId = some entry)
    (hstale : staleByConfig cfg o.now entry.time = false) :
    getWorkItem cfg o st itemId =
      { value := entry.workitem, self := st, didFetch := false, restarted := false } := by
  unfold getWorkItem
  simp [hhit, hstale]

/-- C5 (confirmed): on an initialized session, a cache miss triggers the
per-item fetch, stores whatever it returned (including `undefined` from
a 404 or a failed request) under the id with the fetch-time timestamp,
and returns it; a second resolve of the same id whose clock is within
the refresh interval of the first issues no fetch, changes nothing and
returns the cached value — one fetch in total for the two resolves. -/
theorem fresh_cache_idempotent (cfg : Config) (o1 o2 : Oracles) (st : PolarionState)
    (itemId : String) (hinit : st.initialized = true)
    (hmiss : st.itemCache.get itemId = none)
    (hfresh : staleByConfig cfg o2.now o1.now = false) :
    (getWorkItem cfg o1 st itemId).didFetch = true ∧
    (getWorkItem cfg o1 st itemId).self.itemCache.get itemId =
      some { workitem := (getWorkItemFromPolarion cfg o1 st itemId).value, time := o1.now } ∧
    (getWorkItem cfg o1 st itemId).value =
      (getWorkItemFromPolarion cfg o1 st itemId).value ∧
    (getWorkItem cfg o2 (getWorkItem cfg o1 st itemId).self itemId).didFetch = false ∧
    (getWorkItem cfg o2 (getWorkItem cfg o1 st itemId).self itemId).value =
      (getWorkItem cfg o1 st itemId).value ∧
    (getWorkItem cfg o2 (getWorkItem cfg o1 st itemId).self itemId).self =
      (getWorkItem cfg o1 st itemId).self := by
  have h1 := getWorkItem_miss cfg o1 st itemId hinit hmiss
  have hcache : (getWorkItem cfg o1 st itemId).self.itemCache.get itemId =
      some { workitem := (getWorkItemFromPolarion cfg o1 st itemId).value, time := o1.now } := by
    rw [h1]
    exact Store.get_set_self _ _ _
  have h2 := getWorkItem_hit_fresh cfg o2 (getWorkItem cfg o1 st itemId).self itemId
    { workitem := (getWorkItemFromPolarion cfg o1 st itemId).value, time := o1.now }
    hcache hfresh
  refine ⟨by rw [h1], hcache, by rw [h1], by rw [h2], by rw [h2, h1], by rw [h2]⟩

/-- Closed instance of `fresh_cache_idempotent`: the remote answers 404,
the absent result is cached at time 0; the repeat resolve at time 1000
(within the 5-minute window) issues no fetch and returns the cached
absent value. -/
theorem fresh_cache_idempotent_witness :
    (getWorkItem cfg5 errOracles (freshPolarion "https://example.com" true)
        "AB-1").didFetch = true ∧
    (getWorkItem cfg5 errOracles (freshPolarion "https://example.com" true)
        "AB-1").self.itemCache.get "AB-1" =
      some { workitem := (getWorkItemFromPolarion cfg5 errOracles
          (freshPolarion "https://example.com" true) "AB-1").value, time := errOracles.now } ∧
    (getWorkItem cfg5 errOracles (freshPolarion "https://example.com" true) "AB-1").value =
      (getWorkItemFromPolarion cfg5 errOracles
        (freshPolarion "https://example.com" true) "AB-1").value ∧
    (getWorkItem cfg5 { errOracles with now := 1000 }
        (getWorkItem cfg5 errOracles (freshPolarion "https://example.com" true)
          "AB-1").self "AB-1").didFetch = false ∧
    (getWorkItem cfg5 { errOracles with now := 1000 }
        (getWorkItem cfg5 errOracles (freshPolarion "https://example.com" true)
          "AB-1").self "AB-1").value =
      (getWorkItem cfg5 errOracles (freshPolarion "https://example.com" true)
        "AB-1").value ∧
    (getWorkItem cfg5 { errOracles with now := 1000 }
        (getWorkItem cfg5 errOracles (freshPolarion "https://example.com" true)
          "AB-1").self "AB-1").self =
      (getWorkItem cfg5 errOracles (freshPolarion "https://example.com" true)
        "AB-1").self :=
  fresh_cache_idempotent cfg5 errOracles { errOracles with now := 1000 }
    (freshPolarion "https://example.com" true) "AB-1" rfl rfl (by decide)

/-- Configuration with a one-minute refresh interval. -/
def cfg1m : Config := { refreshTime := some 1, exceptionRestart := none }

/-- A session with an attachment and an icon already cached (both were
downloaded at some earlier time). -/
def stCachedBin : PolarionState :=
  { freshPolarion "https://example.com" true with
      attachmentCache := Store.empty.set "AB-1:att1" "QUJD"
      iconCache := Store.empty.set "http://x/i.png" "data:image/png;base64,QUJD" }

/-- C4 counterexample: the attachment and icon caches carry no fetch
time — one full day after they were populated, with a one-minute refresh
interval configured, both downloads still return the cached value with
no network fetch, so staleness of these tiers is not determined by
elapsed time against the shared refresh interval. -/
theorem cache_timestamp_cex :
    (downloadWorkitemAttachmentForProject { errOracles with now := 86400000 }
        stCachedBin "AB-1" "att1" "P").value = some "QUJD" ∧
    (downloadWorkitemAttachmentForProject { errOracles with now := 86400000 }
        stCachedBin "AB-1" "att1" "P").didFetch = false ∧
    (downloadStatusIcon { errOracles with now := 86400000 } stCachedBin
        "http://x/i.png").value = some "data:image/png;base64,QUJD" ∧
    (downloadStatusIcon { errOracles with now := 86400000 } stCachedBin
        "http://x/i.png").didFetch = false := by
  exact ⟨by decide, by decide, by decide, by decide⟩

/-- C4 amended: the item, status, type and user tiers timestamp every
stored entry and decide staleness solely by elapsed time against the
single shared `RefreshTime` interval, while the attachment and icon
tiers store bare values with no timestamp and serve them cache-first
forever (never refetched). -/
theorem cache_timestamp_amended :
    (∀ (cfg : Config) (o : Oracles) (st : PolarionState) (itemId : String)
      (entry : ItemEntry), st.initialized = true →
      st.itemCache.get itemId = some entry →
      (getWorkItem cfg o st itemId).didFetch = staleByConfig cfg o.now entry.time) ∧
    (∀ (cfg : Config) (o : Oracles) (st : PolarionState) (userId : String)
      (entry : UserCacheEntry), st.initialized = true →
      st.userCache.get userId = some entry →
      (getUserInfo cfg o st userId).didFetch = staleByConfig cfg o.now entry.time) ∧
    (∀ (cfg : Config) (o : Oracles) (st : PolarionState) (projectId workitemType : String)
      (entry : StatusCacheEntry), st.initialized = true →
      st.statusCache.get (projectId ++ ":" ++ workitemType) = some entry →
      (getStatusMappings cfg o st projectId workitemType).didFetch =
        staleByConfig cfg o.now entry.time) ∧
    (∀ (cfg : Config) (o : Oracles) (st : PolarionState) (projectId : String)
      (entry : TypeCacheEntry), st.initialized = true →
      st.workitemTypeCache.get projectId = some entry →
      (getWorkitemTypeMappings cfg o st projectId).didFetch =
        staleByConfig cfg o.now entry.time) ∧
    (∀ (o : Oracles) (st : PolarionState) (userId : String),
      ∃ e, (fetchUserFromPolarion o st userId).userCache.get userId = some e ∧
        e.time = o.now) ∧
    (∀ (o : Oracles) (st : PolarionState) (w a p v : String),
      st.attachmentCache.get (w ++ ":" ++ a) = some v →
      downloadWorkitemAttachmentForProject o st w a p =
        { value := if v = "" then none else some v, self := st, didFetch := false }) ∧
    (∀ (o : Oracles) (st : PolarionState) (url v : String),
      st.iconCache.get url = some v →
      downloadStatusIcon o st url = { value := some v, self := st, didFetch := false }) := by
  refine ⟨fun cfg o st itemId entry hinit hhit => ?_,
    fun cfg o st userId entry hinit hhit => ?_,
    fun cfg o st projectId workitemType entry hinit hhit => ?_,
    fun cfg o st projectId entry hinit hhit => ?_,
    fun o st userId => ?_, fun o st w a p v hhit => ?_, fun o st url v hhit => ?_⟩
  · unfold getWorkItem
    simp only [hinit, hhit, if_true]
    cases hs : staleByConfig cfg o.now entry.time <;> simp [hs]
  · unfold getUserInfo
    simp only [hinit, Bool.true_eq_false, if_false, hhit]
    cases hs : staleByConfig cfg o.now entry.time <;> · split <;> rfl
  · unfold getStatusMappings
    simp only [hinit, Bool.true_eq_false, if_false, hhit]
    cases hs : staleByConfig cfg o.now entry.time <;> · split <;> rfl
  · unfold getWorkitemTypeMappings
    simp only [hinit, Bool.true_eq_false, if_false, hhit]
    cases hs : staleByConfig cfg o.now entry.time <;> · split <;> rfl
  · unfold fetchUserFromPolarion
    split
    · split
      · split <;> exact ⟨_, Store.get_set_self _ _ _, rfl⟩
      · exact ⟨_, Store.get_set_self _ _ _, rfl⟩
    · exact ⟨_, Store.get_set_self _ _ _, rfl⟩
  · unfold downloadWorkitemAttachmentForProject
    dsimp only
    simp only [hhit]
  · unfold downloadStatusIcon
    simp only [hhit]

/-- A session with entries in all four timestamped tiers, fetched at
time 0. -/
def stAllCached : PolarionState :=
  { freshPolarion "https://example.com" true with
      itemCache := Store.empty.set "AB-1" { workitem := some wiSample, time := 0 }
      userCache := Store.empty.set "u1" { user := { name := "User One" }, time := 0 }
      statusCache := Store.empty.set "P:task"
        { statuses := Store.empty.set "open"
            { name := "Open", color := "#00FF00", iconPath := none }, time := 0 }
      workitemTypeCache := Store.empty.set "P" { types := Store.empty, time := 0 } }

/-- Closed instance of `cache_timestamp_amended` on concrete cached
states. -/
theorem cache_timestamp_amended_witness :
    (getWorkItem cfg1m { errOracles with now := 1000 } stAllCached "AB-1").didFetch =
      staleByConfig cfg1m 1000 0 ∧
    (getUserInfo cfg1m { errOracles with now := 1000 } stAllCached "u1").didFetch =
      staleByConfig cfg1m 1000 0 ∧
    (getStatusMappings cfg1m { errOracles with now := 1000 } stAllCached
        "P" "task").didFetch = staleByConfig cfg1m 1000 0 ∧
    (getWorkitemTypeMappings cfg1m { errOracles with now := 1000 } stAllCached
        "P").didFetch = staleByConfig cfg1m 1000 0 ∧
    (∃ e, (fetchUserFromPolarion errOracles stAllCached "u2").userCache.get "u2" =
        some e ∧ e.time = errOracles.now) ∧
    downloadWorkitemAttachmentForProject errOracles stCachedBin "AB-1" "att1" "P" =
      { value := if "QUJD" = "" then none else some "QUJD", self := stCachedBin,
        didFetch := false } ∧
    downloadStatusIcon errOracles stCachedBin "http://x/i.png" =
      { value := some "data:image/png;base64,QUJD", self := stCachedBin,
        didFetch := false } :=
  ⟨cache_timestamp_amended.1 cfg1m _ stAllCached "AB-1" _ rfl rfl,
   cache_timestamp_amended.2.1 cfg1m _ stAllCached "u1" _ rfl rfl,
   cache_timestamp_amended.2.2.1 cfg1m _ stAllCached "P" "task" _ rfl rfl,
   cache_timestamp_amended.2.2.2.1 cfg1m _ stAllCached "P" _ rfl rfl,
   cache_timestamp_amended.2.2.2.2.1 errOracles stAllCached "u2",
   cache_timestamp_amended.2.2.2.2.2.1 errOracles stCachedBin "AB-1" "att1" "P" "QUJD"
     (by decide),
   cache_timestamp_amended.2.2.2.2.2.2 errOracles stCachedBin "http://x/i.png"
     "data:image/png;base64,QUJD" (by decide)⟩

theorem jsOrS_ne_empty (a : Option String) (b : String) (hb : b ≠ "") :
    jsOrS a b ≠ "" := by
  unfold jsOrS
  split
  next s =>
    split
    next => exact hb
    next hs => exact hs
  next => exact hb

theorem jsOrS_of_not_truthy (a : Option String) (b : String)
    (h : jsTruthyS a = false) : jsOrS a b = b := by
  cases a with
  | none => rfl
  | some s =>
    simp only [jsTruthyS, decide_eq_false_iff_not, Decidable.not_not] at h
    simp [jsOrS, h]

theorem processStatusOptions_mem (o : Oracles) : ∀ (opts : List RawOption)
    (m : Store StatusEntryVal) (st : PolarionState) (k : String) (v : StatusEntryVal),
    ((processStatusOptions o opts m st).1).get k = some v →
    (∃ opt ∈ opts, opt.id = some k ∧ jsTruthyS opt.id = true ∧
      jsTruthyS opt.name = true ∧ v.name = opt.name.getD "" ∧
      v.color = jsOrS opt.color "#000000") ∨
    m.get k = some v
  | [], _, _, _, _, h => Or.inr h
  | opt :: rest, m, st, k, v, h => by
    unfold processStatusOptions at h
    split at h
    case isTrue htr =>
      rcases processStatusOptions_mem o rest _ _ k v h with h1 | h2
      · obtain ⟨opt', hmem, hrest⟩ := h1
        exact Or.inl ⟨opt', List.mem_cons_of_mem _ hmem, hrest⟩
      · by_cases hk : k = opt.id.getD ""
        · rw [hk, Store.get_set_self] at h2
          have h2' : _ = v := Option.some_injective _ h2
          subst h2'
          left
          refine ⟨opt, List.mem_cons_self _ _, ?_, htr.1, htr.2, rfl, rfl⟩
          have hti := htr.1
          cases hid : opt.id with
          | none => rw [hid] at hti; exact absurd hti (by simp [jsTruthyS])
          | some s =>
            rw [hid] at hk
            exact congrArg some hk.symm
        · right
          rwa [Store.get_set_of_ne _ _ _ _ hk] at h2
    case isFalse =>
      rcases processStatusOptions_mem o rest m st k v h with h1 | h2
      · obtain ⟨opt', hmem, hrest⟩ := h1
        exact Or.inl ⟨opt', List.mem_cons_of_mem _ hmem, hrest⟩
      · exact Or.inr h2

/-- C10 (confirmed): every entry of a status mapping built by
`fetchStatusMappingsFromPolarion`'s option loop comes from a response
option with truthy `id` and `name` (options lacking either are excluded),
its color is `option.color || '#000000'` — hence non-empty — and it is
exactly `'#000000'` whenever the response omits the color. -/
theorem status_map_entry_shape (o : Oracles) (opts : List RawOption)
    (st : PolarionState) (k : String) (v : StatusEntryVal)
    (h : ((processStatusOptions o opts Store.empty st).1).get k = some v) :
    v.color ≠ "" ∧
    ∃ opt ∈ opts, opt.id = some k ∧ jsTruthyS opt.id = true ∧
      jsTruthyS opt.name = true ∧ v.name = opt.name.getD "" ∧
      v.color = jsOrS opt.color "#000000" ∧
      (jsTruthyS opt.color = false → v.color = "#000000") := by
  rcases processStatusOptions_mem o opts Store.empty st k v h with h1 | h2
  · obtain ⟨opt, hm, hid, hti, htn, hn, hc⟩ := h1
    refine ⟨?_, opt, hm, hid, hti, htn, hn, hc, fun hcf => ?_⟩
    · rw [hc]; exact jsOrS_ne_empty _ _ (by decide)
    · rw [hc]; exact jsOrS_of_not_truthy _ _ hcf
  · exact absurd h2 (by simp [Store.empty, Store.get])

/-- Closed instance of `status_map_entry_shape` on a one-option response
without a color. -/
theorem status_map_entry_shape_witness :
    ({ name := "Open", color := "#000000", iconPath := none } : StatusEntryVal).color ≠ "" ∧
    ∃ opt ∈ [({ id := some "open", name := some "Open" } : RawOption)],
      opt.id = some "open" ∧ jsTruthyS opt.id = true ∧ jsTruthyS opt.name = true ∧
      ({ name := "Open", color := "#000000", iconPath := none } : StatusEntryVal).name =
        opt.name.getD "" ∧
      ({ name := "Open", color := "#000000", iconPath := none } : StatusEntryVal).color =
        jsOrS opt.color "#000000" ∧
      (jsTruthyS opt.color = false →
        ({ name := "Open", color := "#000000", iconPath := none } : StatusEntryVal).color =
          "#000000") :=
  status_map_entry_shape errOracles [{ id := some "open", name := some "Open" }]
    (freshPolarion "https://example.com" true) "open"
    { name := "Open", color := "#000000", iconPath := none } (by decide)

theorem counted_failure_step (cfg : Config) (o : Oracles) (st : PolarionState)
    (itemId : String) (e : ReqError) (N : Nat)
    (hinit : st.initialized = true)
    (hfetch : o.itemFetch itemId = .err e) (hcnt : countedError e = true)
    (hcfg : cfg.exceptionRestart = some N) (hN : 0 < N) :
    (st.exceptionCount ≤ N →
      getWorkItemFromPolarion cfg o st itemId =
        { value := none, self := { st with exceptionCount := st.exceptionCount + 1 },
          restarted := false }) ∧
    (N < st.exceptionCount →
      getWorkItemFromPolarion cfg o st itemId =
        { value := none, self := st, restarted := true }) := by
  have hcnt' : ¬ e.code = some 404 ∧ ¬ (e.code = some 401 ∨ e.code = some 403) := by
    simpa [countedError] using hcnt
  constructor
  · intro hcount
    unfold getWorkItemFromPolarion
    rw [if_neg (by simp [hinit]), hfetch]
    dsimp only
    rw [if_neg hcnt'.1, if_neg hcnt'.2]
    simp only [hcfg]
    rw [if_neg (Nat.pos_iff_ne_zero.mp hN)]
    rw [if_neg (fun hh => absurd hh.1 (Nat.not_lt.mpr hcount))]
  · intro hcount
    unfold getWorkItemFromPolarion
    rw [if_neg (by simp [hinit]), hfetch]
    dsimp only
    rw [if_neg hcnt'.1, if_neg hcnt'.2]
    simp only [hcfg]
    rw [if_neg (Nat.pos_iff_ne_zero.mp hN)]
    rw [if_pos ⟨hcount, hN⟩]

theorem failIter_count (cfg : Config) (o : Oracles) (itemId : String) (e : ReqError)
    (N : Nat) (hfetch : o.itemFetch itemId = .err e) (hcnt : countedError e = true)
    (hcfg : cfg.exceptionRestart = some N) (hN : 0 < N) :
    ∀ (k : Nat) (st : PolarionState), st.initialized = true →
      st.exceptionCount + k ≤ N + 1 →
      (failIter cfg o itemId k st).initialized = true ∧
      (failIter cfg o itemId k st).exceptionCount = st.exceptionCount + k
  | 0, st, hinit, _ => ⟨hinit, rfl⟩
  | Nat.succ k, st, hinit, hle => by
    have hstep := (counted_failure_step cfg o st itemId e N hinit hfetch hcnt hcfg
      hN).1 (by omega)
    have ih := failIter_count cfg o itemId e N hfetch hcnt hcfg hN k
      { st with exceptionCount := st.exceptionCount + 1 } hinit
      (show st.exceptionCount + 1 + k ≤ N + 1 by omega)
    unfold failIter
    rw [hstep]
    exact ⟨ih.1, by
      rw [ih.2]
      show st.exceptionCount + 1 + k = st.exceptionCount + Nat.succ k
      omega⟩

/-- C1 amended: with a configured threshold N > 0, consecutive counted
transport failures on a fresh session increment the exception counter —
the first N+1 of them do not trigger a re-creation and leave the counter
at N+1 — and it is the (N+2)-th counted failure (the first one at which
the counter already exceeds N) that invokes `createPolarion`: the
observed session afterwards is a new object with fresh empty caches and
exception counter zero. -/
theorem restart_threshold_amended (cfg : Config) (o : Oracles) (itemId url : String)
    (e : ReqError) (N : Nat)
    (hfetch : o.itemFetch itemId = .err e) (hcnt : countedError e = true)
    (hcfg : cfg.exceptionRestart = some N) (hN : 0 < N) :
    (∀ k, k ≤ N →
      (getWorkItemFromPolarion cfg o
        (failIter cfg o itemId k (freshPolarion url true)) itemId).restarted = false) ∧
    (failIter cfg o itemId (N + 1) (freshPolarion url true)).exceptionCount = N + 1 ∧
    (getWorkItemFromPolarion cfg o
        (failIter cfg o itemId (N + 1) (freshPolarion url true)) itemId).restarted = true ∧
    sessionAfter o url (getWorkItemFromPolarion cfg o
        (failIter cfg o itemId (N + 1) (freshPolarion url true)) itemId) =
      freshPolarion url o.restartInit ∧
    (freshPolarion url o.restartInit).exceptionCount = 0 ∧
    (freshPolarion url o.restartInit).itemCache = Store.empty := by
  have hcount := failIter_count cfg o itemId e N hfetch hcnt hcfg hN
  have hlast := hcount (N + 1) (freshPolarion url true) rfl (by simp [freshPolarion])
  have hstep2 := (counted_failure_step cfg o _ itemId e N hlast.1 hfetch hcnt hcfg hN).2
    (by rw [hlast.2]; simp [freshPolarion])
  refine ⟨?_, ?_, ?_, ?_, rfl, rfl⟩
  · intro k hk
    obtain ⟨hi, hc⟩ := hcount k (freshPolarion url true) rfl (by simp [freshPolarion]; omega)
    have hstep := (counted_failure_step cfg o _ itemId e N hi hfetch hcnt hcfg hN).1
      (by rw [hc]; simp [freshPolarion]; omega)
    rw [hstep]
  · rw [hlast.2]; simp [freshPolarion]
  · rw [hstep2]
  · rw [hstep2]
    simp [sessionAfter]

/-- Configuration with restart threshold 1 and no refresh interval. -/
def cfgR1 : Config := { refreshTime := none, exceptionRestart := some 1 }

/-- Oracle whose item query always fails with a response-less network
error (an exception-counted transport failure). -/
def failOracles : Oracles := { errOracles with itemFetch := fun _ => .err (.net "boom") }

/-- C1 counterexample: with threshold N = 1, the (N+1)-th = second
consecutive counted transport failure does not trigger a session
re-creation — it increments the exception counter to 2; only the
(N+2)-th failure restarts. -/
theorem restart_threshold_cex :
    (getWorkItemFromPolarion cfgR1 failOracles
        (failIter cfgR1 failOracles "AB-1" 1 (freshPolarion "https://example.com" true))
        "AB-1").restarted = false ∧
    (getWorkItemFromPolarion cfgR1 failOracles
        (failIter cfgR1 failOracles "AB-1" 1 (freshPolarion "https://example.com" true))
        "AB-1").self.exceptionCount = 2 :=
  ⟨by decide, by decide⟩

/-- Closed instance of `restart_threshold_amended` at threshold 1. -/
theorem restart_threshold_amended_witness :
    (∀ k, k ≤ 1 →
      (getWorkItemFromPolarion cfgR1 failOracles
        (failIter cfgR1 failOracles "AB-1" k
          (freshPolarion "https://example.com" true)) "AB-1").restarted = false) ∧
    (failIter cfgR1 failOracles "AB-1" 2
        (freshPolarion "https://example.com" true)).exceptionCount = 2 ∧
    (getWorkItemFromPolarion cfgR1 failOracles
        (failIter cfgR1 failOracles "AB-1" 2
          (freshPolarion "https://example.com" true)) "AB-1").restarted = true ∧
    sessionAfter failOracles "https://example.com"
        (getWorkItemFromPolarion cfgR1 failOracles
          (failIter cfgR1 failOracles "AB-1" 2
            (freshPolarion "https://example.com" true)) "AB-1") =
      freshPolarion "https://example.com" failOracles.restartInit ∧
    (freshPolarion "https://example.com" failOracles.restartInit).exceptionCount = 0 ∧
    (freshPolarion "https://example.com" failOracles.restartInit).itemCache =
      Store.empty :=
  restart_threshold_amended cfgR1 failOracles "AB-1" "https://example.com"
    (.net "boom") 1 rfl (by decide) rfl (by decide)
